import Mathlib

/-!
Shallow embedding of the session lifecycle and conversation-memory
orchestration layer of a multi-tenant RAG chatbot.

The embedding follows the Python sources:
`models.py` (the relational rows), `session_manager.py` (the session
manager operating on the store), `chatbot.py` (the orchestrator:
`UniversalLLM._call`, `SessionAwareChatbot`), `app.py` (the route
handlers `chat_message`, `terminate_session`, `reload_documents`,
`logout`) and `config.py` (`Config`).

Modelling conventions:
  time is a natural number of seconds standing for `datetime.utcnow()`
  and is passed explicitly to every operation that reads the clock;
  UUID generation (row ids and session tokens) is modelled by a fresh
  counter `next_uuid` in the store, so each generated identifier is a
  fresh natural number, matching the uniqueness of `uuid4`;
  the SQL query `ORDER BY timestamp DESC` is modelled relationally by
  `OrderedByTimestampDesc` (any permutation sorted by descending
  timestamp, since SQL leaves the order of ties unspecified), and route
  handlers that run that query receive the ordered rows as an input;
  the HTTP completion call made by `UniversalLLM._call` is modelled by
  an `HttpOutcome` input (status plus parsed content, or a raised
  transport error), and the surrounding retrieval chain by a
  `ChainOutcome` input; every handler additionally returns the list of
  observable `Event`s it performed, in order, so that statements about
  "X happens before Y" and "Z is never invoked" can be expressed.
-/

namespace CB

/-- Clock values, standing for `datetime.utcnow()` readings (in seconds). -/
abbrev Time := Nat

/-- Row of the `organizations` table (`models.py`, class `Organization`).
The unused `domain` column is omitted. -/
structure Organization where
  id : Nat
  name : String
  api_key : String
  is_active : Bool
deriving DecidableEq, Repr

/-- Row of the `users` table (`models.py`, class `User`). -/
structure User where
  id : Nat
  username : String
  email : Option String
  organization_id : Nat
  created_at : Time
  last_active : Time
  is_active : Bool
deriving DecidableEq, Repr

/-- Row of the `chat_sessions` table (`models.py`, class `ChatSession`).
The unused `context_data` column is omitted. -/
structure ChatSession where
  id : Nat
  user_id : Nat
  organization_id : Nat
  session_token : Nat
  created_at : Time
  last_activity : Time
  expires_at : Time
  is_active : Bool
deriving DecidableEq, Repr

/-- Row of the `chat_messages` table (`models.py`, class `ChatMessage`).
The `sources` column is a JSON list, absent for user messages; an absent
column and an empty list are indistinguishable through `get_sources`,
so it is modelled as a plain list. -/
structure ChatMessage where
  id : Nat
  session_id : Nat
  message_type : String
  content : String
  sources : List String
  timestamp : Time
deriving DecidableEq, Repr

/-- The relational store of `models.py`, with the UUID source `next_uuid`. -/
structure DB where
  organizations : List Organization
  users : List User
  chat_sessions : List ChatSession
  chat_messages : List ChatMessage
  next_uuid : Nat
deriving DecidableEq, Repr

/-- The empty store. -/
def DB.empty : DB :=
  { organizations := [], users := [], chat_sessions := [], chat_messages := [], next_uuid := 0 }

namespace Config

/-- `config.py` `Config.SESSION_TIMEOUT_HOURS` (default). -/
def SESSION_TIMEOUT_HOURS : Nat := 24

/-- `config.py` `Config.MAX_CONTEXT_MESSAGES` (default). -/
def MAX_CONTEXT_MESSAGES : Nat := 10

end Config

namespace SessionManager

/-- `session_manager.py` `SessionManager.authenticate_organization`:
first organization row whose key matches and which is active. -/
def authenticate_organization (db : DB) (api_key : String) : Option Organization :=
  db.organizations.find? (fun o => o.api_key == api_key && o.is_active)

/-- Query predicate of `get_or_create_user`: active user with the given
username in the given organization. -/
def user_query (username : String) (org_id : Nat) (u : User) : Bool :=
  u.username == username && u.organization_id == org_id && u.is_active

/-- `session_manager.py` `SessionManager.get_or_create_user`: look up the
active user by (username, organization); if found, set `last_active` to
now; otherwise insert a fresh active user row.  Returns the user together
with the updated store. -/
def get_or_create_user (db : DB) (now : Time) (username : String)
    (organization : Organization) (email : Option String) : User × DB :=
  match db.users.find? (user_query username organization.id) with
  | some u =>
      let u2 : User := { u with last_active := now }
      (u2, { db with users := db.users.map (fun v => if v.id == u.id then u2 else v) })
  | none =>
      let u : User :=
        { id := db.next_uuid, username := username, email := email,
          organization_id := organization.id, created_at := now,
          last_active := now, is_active := true }
      (u, { db with users := db.users ++ [u], next_uuid := db.next_uuid + 1 })

/-- `session_manager.py` `SessionManager.create_session`: set
`is_active = false` on every active session of the user, then insert a
fresh session with a fresh token and `expires_at = now + 24h`. -/
def create_session (db : DB) (now : Time) (user : User) : ChatSession × DB :=
  let deactivated := db.chat_sessions.map
    (fun s => if s.user_id == user.id && s.is_active then { s with is_active := false } else s)
  let new_session : ChatSession :=
    { id := db.next_uuid, user_id := user.id, organization_id := user.organization_id,
      session_token := db.next_uuid, created_at := now, last_activity := now,
      expires_at := now + 24 * 3600, is_active := true }
  (new_session,
   { db with chat_sessions := deactivated ++ [new_session], next_uuid := db.next_uuid + 1 })

/-- Query predicate of `get_active_session`: token match, active flag set,
and `expires_at > now` (strict). -/
def session_query (token : Nat) (now : Time) (s : ChatSession) : Bool :=
  s.session_token == token && s.is_active && decide (now < s.expires_at)

/-- `session_manager.py` `SessionManager.get_active_session`: look up the
session by token among active, unexpired sessions; on a hit, update that
row's `last_activity` to now and return the updated row. -/
def get_active_session (db : DB) (now : Time) (session_token : Nat) :
    Option ChatSession × DB :=
  match db.chat_sessions.find? (session_query session_token now) with
  | some s =>
      (some { s with last_activity := now },
       { db with chat_sessions :=
           db.chat_sessions.map (fun t =>
             if t.id == s.id then { t with last_activity := now } else t) })
  | none => (none, db)

/-- `session_manager.py` `SessionManager.save_message`: insert a message
row for the session with a fresh id and the current timestamp. -/
def save_message (db : DB) (now : Time) (session : ChatSession)
    (message_type : String) (content : String) (sources : List String) :
    ChatMessage × DB :=
  let message : ChatMessage :=
    { id := db.next_uuid, session_id := session.id, message_type := message_type,
      content := content, sources := sources, timestamp := now }
  (message,
   { db with chat_messages := db.chat_messages ++ [message], next_uuid := db.next_uuid + 1 })

/-- The rows selected by the `chat_messages` query of
`get_conversation_history` before ordering: all messages of the session. -/
def session_messages (db : DB) (session : ChatSession) : List ChatMessage :=
  db.chat_messages.filter (fun m => m.session_id == session.id)

/-- Relational model of the SQL `ORDER BY timestamp DESC` step applied to
the rows `l`: the result `q` is a permutation of `l` that is sorted by
descending timestamp.  The order of rows with equal timestamps is
unspecified by SQL, hence a relation rather than a function. -/
def OrderedByTimestampDesc (l q : List ChatMessage) : Prop :=
  l.Perm q ∧ q.Pairwise (fun a b => b.timestamp ≤ a.timestamp)

/-- A message list consisting of completed turn-pairs: a user message
followed by its assistant response, repeated. -/
def alternating_turns : List ChatMessage → Bool
  | [] => true
  | u :: a :: rest =>
      u.message_type == "user" && a.message_type == "assistant" &&
        alternating_turns rest
  | [_] => false

/-- One entry of the chat-format history produced by
`get_conversation_history`. -/
structure HistoryEntry where
  role : String
  content : String
  sources : Option (List String)
  timestamp : Time
deriving DecidableEq, Repr

/-- Conversion of one stored message to chat format, as in the loop body
of `get_conversation_history`. -/
def history_entry (m : ChatMessage) : HistoryEntry :=
  { role := if m.message_type == "user" then "user" else "assistant",
    content := m.content,
    sources := if m.message_type == "assistant" then some m.sources else none,
    timestamp := m.timestamp }

/-- Body of `session_manager.py` `get_conversation_history` given the
DESC-ordered rows `q` of the session: keep the first `limit * 2` rows,
reverse them into chronological order, convert to chat format, and apply
the final (always redundant, since at most `limit * 2` rows were taken)
trim to the last `limit * 2` entries. -/
def get_conversation_history_rows (q : List ChatMessage) (limit : Nat) :
    List HistoryEntry :=
  let messages := q.take (limit * 2)
  let history := (messages.reverse).map history_entry
  if history.length > limit * 2 then history.drop (history.length - limit * 2) else history

/-- `session_manager.py` `SessionManager.cleanup_expired_sessions`: set
`is_active = false` on every active session with `expires_at < now`. -/
def cleanup_expired_sessions (db : DB) (now : Time) : DB :=
  { db with chat_sessions :=
      db.chat_sessions.map (fun s =>
        if decide (s.expires_at < now) && s.is_active then { s with is_active := false } else s) }

end SessionManager

/-- Python truthiness of `query.strip()` being empty: every character of
the string is whitespace (this is exactly when `str.strip()` returns the
empty string). -/
def strippedEmpty (s : String) : Bool :=
  s.toList.all (fun c => c.isWhitespace)

/-- The input guard of `SessionAwareChatbot.get_response`:
`not query or not query.strip()`. -/
def not_query (query : String) : Bool :=
  query.isEmpty || strippedEmpty query

/-- Outcome of the HTTP POST to `{base_url}/chat/completions` made by
`UniversalLLM._call`: either a response arrived, carrying the status code
and (for status 200) the parsed `choices[0].message.content`, or the
request raised (timeout or transport error), carrying the error text. -/
inductive HttpOutcome
| resp (status : Nat) (content : String)
| exn (msg : String)
deriving DecidableEq, Repr

/-- The fixed apology text of `chatbot.py` (used both for a non-200
status inside `UniversalLLM._call` and in the exception handler of
`get_response`). -/
def apology_generic : String :=
  "I apologize, but I encountered an error processing your request. Please try again."

/-- `chatbot.py` `UniversalLLM._call`: on a non-200 status, log and
return the generic apology string as the answer text; on status 200
return the message content; on a raised request error, return the
apology text with the error appended.  Note that every branch returns a
string; no failure escapes as an exception. -/
def UniversalLLM_call (http : HttpOutcome) : String :=
  match http with
  | .resp status content =>
      if status != 200 then apology_generic else content
  | .exn msg => "I apologize, but I encountered an error: " ++ msg

/-- Conversation role of a message in the langchain chat buffer
(`HumanMessage` / `AIMessage`). -/
inductive Role
| user
| assistant
deriving DecidableEq, Repr

/-- A `ConversationBufferWindowMemory` as configured in
`get_or_create_memory`: `chat_memory` stores every message added; the
window handed to the chain is the last `k` interactions, i.e. the last
`2 * k` messages (property `buffer` of the langchain class). -/
structure Memory where
  chat_memory : List (Role × String)
deriving DecidableEq, Repr

/-- The window a `ConversationBufferWindowMemory` exposes: the last
`2 * k` stored messages (or none when `k = 0`). -/
def Memory.window (k : Nat) (m : Memory) : List (Role × String) :=
  if k > 0 then m.chat_memory.drop (m.chat_memory.length - 2 * k) else []

/-- One document returned by the retriever, with its optional `source`
metadata entry. -/
structure RetrievedDoc where
  text : String
  source : Option String
deriving DecidableEq, Repr

/-- Outcome of the call `chain({"question": query})` of
`ConversationalRetrievalChain`: either the chain ran to completion,
carrying the retrieved source documents and the HTTP outcome of the
completion call (whose text becomes the answer), or the chain raised an
exception, carrying the error text.  When the chain raises, langchain
does not write the turn into the memory. -/
inductive ChainOutcome
| runs (source_documents : List RetrievedDoc) (http : HttpOutcome)
| raises (msg : String)
deriving DecidableEq, Repr

/-- Observable actions of a request handler, in order of occurrence. -/
inductive Event
| saved_message (id : Nat) (message_type : String)
| invoked_orchestrator
| invoked_chain
deriving DecidableEq, Repr

/-- The in-process state of `SessionAwareChatbot`: the `_sessions`
dictionary, keyed by session id, holding each session's conversation
memory (the chain member is a function of the memory and the shared
retriever, so only the memory is state). -/
structure SessionAwareChatbot where
  _sessions : List (Nat × Memory)
deriving DecidableEq, Repr

namespace SessionAwareChatbot

/-- Dictionary lookup in `_sessions`. -/
def mem_lookup (bot : SessionAwareChatbot) (session_id : Nat) : Option Memory :=
  (bot._sessions.find? (fun p => p.1 == session_id)).map (fun p => p.2)

/-- The seeding loop of `get_or_create_memory`: replay the provided
conversation history into a fresh buffer, user entries as human messages
and assistant entries as AI messages, in order. -/
def seed_memory (conversation_history : List SessionManager.HistoryEntry) : Memory :=
  { chat_memory := conversation_history.foldl
      (fun buf msg =>
        if msg.role == "user" then buf ++ [(Role.user, msg.content)]
        else if msg.role == "assistant" then buf ++ [(Role.assistant, msg.content)]
        else buf) [] }

/-- `chatbot.py` `SessionAwareChatbot.get_or_create_memory`: return the
existing entry for the session id if present; otherwise create one,
preloaded from the provided history (a missing history seeds nothing,
and replaying an empty history also seeds nothing), and install it in
`_sessions`. -/
def get_or_create_memory (bot : SessionAwareChatbot) (session_id : Nat)
    (conversation_history : Option (List SessionManager.HistoryEntry)) :
    Memory × SessionAwareChatbot :=
  match bot._sessions.find? (fun p => p.1 == session_id) with
  | some p => (p.2, bot)
  | none =>
      let memory :=
        match conversation_history with
        | some h => seed_memory h
        | none => { chat_memory := [] }
      (memory, { bot with _sessions := bot._sessions ++ [(session_id, memory)] })

/-- Python `set.add` on a deduplicated accumulator. -/
def set_add (s : List String) (x : String) : List String :=
  if s.contains x then s else s ++ [x]

/-- The source-extraction loop of `get_response`: collect the distinct
`source` metadata values of the returned documents. -/
def extract_sources (source_docs : List RetrievedDoc) : List String :=
  source_docs.foldl
    (fun acc doc =>
      match doc.source with
      | some src => set_add acc src
      | none => acc) []

/-- The dictionary returned by `get_response`.  A `none` field models an
absent dictionary key. -/
structure ChatResult where
  response : String
  sources : List String
  success : Bool
  error : Option String
  session_id : Option Nat
deriving DecidableEq, Repr

/-- `chatbot.py` `SessionAwareChatbot.get_response`: reject an empty or
whitespace-only query before touching any state; otherwise get or create
the session memory, run the retrieval chain, and on completion extract
the answer and deduplicated sources and append the (user, assistant)
turn to the memory; a raised exception is caught and converted to a
`success = false` result carrying the error text.  Also returns the
events performed: the chain (retriever plus completion backend) is
invoked exactly when the query passed validation. -/
def get_response (bot : SessionAwareChatbot) (query : String) (session_id : Nat)
    (conversation_history : Option (List SessionManager.HistoryEntry))
    (outcome : ChainOutcome) :
    ChatResult × SessionAwareChatbot × List Event :=
  if not_query query then
    ({ response := "Please provide a valid question.", sources := [],
       success := false, error := none, session_id := none }, bot, [])
  else
    let created := get_or_create_memory bot session_id conversation_history
    let memory := created.1
    let bot1 := created.2
    match outcome with
    | .raises msg =>
        ({ response := apology_generic, sources := [],
           success := false, error := some msg, session_id := none },
         bot1, [Event.invoked_chain])
    | .runs source_docs http =>
        let answer := UniversalLLM_call http
        let sources := extract_sources source_docs
        let memory2 : Memory :=
          { chat_memory := memory.chat_memory ++ [(Role.user, query), (Role.assistant, answer)] }
        let bot2 : SessionAwareChatbot :=
          { bot1 with _sessions :=
              bot1._sessions.map (fun p =>
                if p.1 == session_id then (p.1, memory2) else p) }
        ({ response := answer, sources := sources,
           success := true, error := none, session_id := some session_id },
         bot2, [Event.invoked_chain])

/-- `chatbot.py` `SessionAwareChatbot.clear_session_memory`: delete the
entry for the session id if present. -/
def clear_session_memory (bot : SessionAwareChatbot) (session_id : Nat) :
    SessionAwareChatbot :=
  { bot with _sessions := bot._sessions.filter (fun p => !(p.1 == session_id)) }

/-- `chatbot.py` `SessionAwareChatbot.get_active_sessions`: the keys of
`_sessions`. -/
def get_active_sessions (bot : SessionAwareChatbot) : List Nat :=
  bot._sessions.map (fun p => p.1)

end SessionAwareChatbot

/-- Responses of the embedded `app.py` route handlers. -/
inductive ApiResponse
| ok_chat (response : String) (sources : List String) (message_id : Nat)
    (session_id : Nat) (timestamp : Time)
| bad_request (error : String)
| server_error (error : String) (details : String)
| not_found (error : String)
| ok_message (message : String)
deriving DecidableEq, Repr

/-- Whether a route response is the 200 chat response. -/
def ApiResponse.is_ok : ApiResponse → Bool
| .ok_chat _ _ _ _ _ => true
| _ => false

namespace App

open SessionManager SessionAwareChatbot

/-- `app.py` `chat_message` (route `/api/v1/chat/message`), after
`require_session` has validated `session`: reject a missing or empty
message body; otherwise fetch the conversation history (the store's
DESC-ordered rows for the session are the input `ordered_rows`), persist
the user message, invoke the orchestrator, and persist the assistant
message only when the orchestrator result has `success = true`;
otherwise answer 500 with the result's error detail. -/
def chat_message (db : DB) (bot : SessionAwareChatbot) (now : Time)
    (session : ChatSession) (user_message : Option String)
    (include_history : Bool) (ordered_rows : List ChatMessage)
    (outcome : ChainOutcome) :
    ApiResponse × DB × SessionAwareChatbot × List Event :=
  match user_message with
  | none => (.bad_request "Message is required", db, bot, [])
  | some msg =>
      if msg.isEmpty then (.bad_request "Message is required", db, bot, [])
      else
        let conversation_history :=
          if include_history then
            get_conversation_history_rows ordered_rows Config.MAX_CONTEXT_MESSAGES
          else []
        let saved := save_message db now session "user" msg []
        let user_msg := saved.1
        let db1 := saved.2
        let answered := get_response bot msg session.id (some conversation_history) outcome
        let result := answered.1
        let bot1 := answered.2.1
        let events := [Event.saved_message user_msg.id "user", Event.invoked_orchestrator]
          ++ answered.2.2
        if result.success then
          let saved2 := save_message db1 now session "assistant" result.response result.sources
          let assistant_msg := saved2.1
          let db2 := saved2.2
          (.ok_chat result.response result.sources assistant_msg.id session.id
             assistant_msg.timestamp,
           db2, bot1, events ++ [Event.saved_message assistant_msg.id "assistant"])
        else
          (.server_error "Failed to get response" (result.error.getD "Unknown error"),
           db1, bot1, events)

/-- `app.py` `logout` (route `/api/v1/auth/logout`): deactivate the
authenticated session's row and clear its memory entry. -/
def logout (db : DB) (bot : SessionAwareChatbot) (session : ChatSession) :
    DB × SessionAwareChatbot :=
  ({ db with chat_sessions :=
       db.chat_sessions.map (fun t =>
         if t.id == session.id then { t with is_active := false } else t) },
   clear_session_memory bot session.id)

/-- `app.py` `terminate_session` (route
`/api/v1/admin/sessions/<session_id>/terminate`), after `require_api_key`
has authenticated `organization`: look the session up by id scoped to the
authenticated organization; absent a match answer 404 and change
nothing; on a match deactivate the row and clear its memory entry. -/
def terminate_session (db : DB) (bot : SessionAwareChatbot)
    (organization : Organization) (session_id : Nat) :
    ApiResponse × DB × SessionAwareChatbot :=
  match db.chat_sessions.find?
      (fun s => s.id == session_id && s.organization_id == organization.id) with
  | none => (.not_found "Session not found", db, bot)
  | some s =>
      (.ok_message "Session terminated successfully",
       { db with chat_sessions :=
           db.chat_sessions.map (fun t =>
             if t.id == s.id then { t with is_active := false } else t) },
       clear_session_memory bot session_id)

/-- `app.py` `reload_documents` (route `/api/v1/admin/reload-documents`):
rebuild the vector store and replace the global chatbot with a freshly
constructed `SessionAwareChatbot` (whose `_sessions` dictionary starts
empty); then clear the memory of each active session of the new chatbot
(a no-op, since the new dictionary is empty). -/
def reload_documents (_bot : SessionAwareChatbot) : SessionAwareChatbot :=
  let new_bot : SessionAwareChatbot := { _sessions := [] }
  (get_active_sessions new_bot).foldl (fun b sid => clear_session_memory b sid) new_bot

/-- Provisioning of an organization row (`setup_organization.py`): insert
a fresh organization. -/
def provision_organization (db : DB) (name : String)
    (api_key : String) : Organization × DB :=
  let org : Organization :=
    { id := db.next_uuid, name := name, api_key := api_key, is_active := true }
  (org, { db with organizations := db.organizations ++ [org], next_uuid := db.next_uuid + 1 })

end App

/-- Store states reachable from the empty store through the embedded
operations. -/
inductive Reachable : DB → Prop
| empty : Reachable DB.empty
| provision (db : DB) (name api_key : String) :
    Reachable db → Reachable (App.provision_organization db name api_key).2
| login_user (db : DB) (now : Time) (username : String) (org : Organization)
    (email : Option String) :
    Reachable db → Reachable (SessionManager.get_or_create_user db now username org email).2
| login_session (db : DB) (now : Time) (user : User) :
    Reachable db → Reachable (SessionManager.create_session db now user).2
| touch_session (db : DB) (now : Time) (token : Nat) :
    Reachable db → Reachable (SessionManager.get_active_session db now token).2
| message (db : DB) (now : Time) (session : ChatSession) (mt content : String)
    (sources : List String) :
    Reachable db → Reachable (SessionManager.save_message db now session mt content sources).2
| sweep (db : DB) (now : Time) :
    Reachable db → Reachable (SessionManager.cleanup_expired_sessions db now)
| logout_session (db : DB) (bot : SessionAwareChatbot) (session : ChatSession) :
    Reachable db → Reachable (App.logout db bot session).1
| admin_terminate (db : DB) (bot : SessionAwareChatbot) (org : Organization)
    (sid : Nat) :
    Reachable db → Reachable (App.terminate_session db bot org sid).2.1

/-- Number of active session rows of one user. -/
def active_session_count (db : DB) (uid : Nat) : Nat :=
  (db.chat_sessions.filter (fun s => s.user_id == uid && s.is_active)).length

/-- The single-active-session-per-user store invariant. -/
def SingleActivePerUser (db : DB) : Prop :=
  ∀ uid, active_session_count db uid ≤ 1

/-! Concrete fixtures used by witnesses and counterexamples. -/

/-- Example organization. -/
def org_ex : Organization :=
  { id := 2, name := "Acme", api_key := "K1", is_active := true }

/-- An organization different from `org_ex`. -/
def org_other : Organization :=
  { id := 3, name := "Other", api_key := "K2", is_active := true }

/-- Example user of `org_ex`. -/
def user_ex : User :=
  { id := 1, username := "alice", email := none, organization_id := 2,
    created_at := 0, last_active := 0, is_active := true }

/-- Example active, unexpired session of `user_ex`. -/
def session_ex : ChatSession :=
  { id := 100, user_id := 1, organization_id := 2, session_token := 50,
    created_at := 0, last_activity := 0, expires_at := 86400, is_active := true }

/-- An active session whose expiry time has passed at time 10. -/
def expired_session_ex : ChatSession :=
  { id := 7, user_id := 1, organization_id := 2, session_token := 7,
    created_at := 0, last_activity := 0, expires_at := 5, is_active := true }

/-- Example store holding `session_ex`. -/
def db_ex : DB :=
  { organizations := [org_ex], users := [user_ex], chat_sessions := [session_ex],
    chat_messages := [], next_uuid := 101 }

/-- Example store holding only the expired session. -/
def db_expired : DB :=
  { organizations := [org_ex], users := [user_ex],
    chat_sessions := [expired_session_ex], chat_messages := [], next_uuid := 101 }

/-- A chatbot whose memory cache is empty. -/
def bot_ex : SessionAwareChatbot := { _sessions := [] }

/-- An example chatbot whose cache holds one entry for session 100 with a
one-turn buffer. -/
def bot_with_entry : SessionAwareChatbot :=
  { _sessions := [(100, { chat_memory := [(Role.user, "hello"), (Role.assistant, "hi")] })] }

/-- The user Message row the whitespace turn of `C1_witness` persists. -/
def ws_user_message : ChatMessage :=
  { id := 101, session_id := 100, message_type := "user", content := " ",
    sources := [], timestamp := 5 }

/-- The store after the whitespace turn of `C1_witness`. -/
def db_ex_after_ws : DB :=
  { db_ex with chat_messages := [ws_user_message], next_uuid := 102 }

/-- The user message of the one stored turn in `db_hist`. -/
def msg_u1 : ChatMessage :=
  ⟨201, 100, "user", "What is the leave policy?", [], 1⟩

/-- The assistant message of the one stored turn in `db_hist`. -/
def msg_a1 : ChatMessage :=
  ⟨202, 100, "assistant", "See the handbook.", ["hr.pdf"], 2⟩

/-- A store holding one completed turn-pair for `session_ex`. -/
def db_hist : DB :=
  { organizations := [org_ex], users := [user_ex], chat_sessions := [session_ex],
    chat_messages := [msg_u1, msg_a1], next_uuid := 300 }

/-! Claim theorems appear after the helper lemmas below. -/

/-! Helper lemmas. -/

/-- A projection that every update step preserves pointwise is preserved
by the mapped list. -/
theorem map_proj_of_pointwise {α β : Type} (l : List α) (g : α → α) (f : α → β)
    (h : ∀ x, f (g x) = f x) : (l.map g).map f = l.map f := by
  rw [List.map_map]
  exact List.map_congr_left (fun a _ => h a)

/-- Replacing the element found by `find?` with a record that has the
same id and still satisfies the predicate makes `find?` return the
replacement. -/
theorem find?_map_replace_user (l : List User) (u u2 : User)
    (p : User → Bool) (hfind : l.find? p = some u) (hid : u2.id = u.id)
    (hp2 : p u2 = true) :
    (l.map (fun v => if v.id == u.id then u2 else v)).find? p = some u2 := by
  induction l with
  | nil => simp at hfind
  | cons v t ih =>
      rw [List.find?_cons] at hfind
      rw [List.map_cons, List.find?_cons]
      cases hpv : p v with
      | true =>
          simp only [hpv, Option.some.injEq] at hfind
          subst hfind
          rw [if_pos (by simp)]
          simp only [hp2]
      | false =>
          simp only [hpv] at hfind
          by_cases hvid : v.id = u.id
          · rw [if_pos (by simp [hvid])]
            simp only [hp2]
          · rw [if_neg (by simp [hvid])]
            simp only [hpv]
            exact ih hfind

/-- Updating the value stored under a key in the `_sessions` dictionary:
`find?` afterwards returns the updated entry. -/
theorem find?_assoc_update (l : List (Nat × Memory)) (sid : Nat)
    (pr : Nat × Memory) (m2 : Memory)
    (hfind : l.find? (fun p => p.1 == sid) = some pr) :
    (l.map (fun p => if p.1 == sid then (p.1, m2) else p)).find?
        (fun p => p.1 == sid) = some (pr.1, m2) := by
  induction l with
  | nil => simp at hfind
  | cons v t ih =>
      rw [List.find?_cons] at hfind
      rw [List.map_cons, List.find?_cons]
      cases hv : (v.1 == sid) with
      | true =>
          simp only [hv, Option.some.injEq] at hfind
          subst hfind
          simp [hv]
      | false =>
          simp only [hv] at hfind
          rw [if_neg (by simp [hv])]
          simp only [hv]
          exact ih hfind

/-! Claim theorems. -/

/-- C7: after the reload-knowledge-index operation, no memory-cache entry
created before the reload is reachable: the new cache is empty, every
lookup misses, and a subsequent `get_or_create_memory` starts cold,
seeding only from the stored-message history it is given, never from
pre-reload cache state. -/
theorem C7_reload_clears_memory_cache :
    ∀ (bot : SessionAwareChatbot) (sid : Nat)
      (hist : Option (List SessionManager.HistoryEntry)),
      (App.reload_documents bot)._sessions = [] ∧
      (App.reload_documents bot).mem_lookup sid = none ∧
      ((App.reload_documents bot).get_or_create_memory sid hist).1 =
        (match hist with
         | some h => SessionAwareChatbot.seed_memory h
         | none => { chat_memory := [] }) := by
  intro bot sid hist
  refine ⟨rfl, rfl, ?_⟩
  cases hist <;> rfl

/-- C4: `get_active_session` returns a session only if its active flag is
set and the current time is strictly before `expires_at`; a returned
session has `last_activity` bumped to now and is otherwise a stored row;
if every stored row with the token is inactive or expired, the result is
`none`; and the operation never changes any `expires_at`. -/
theorem C4_get_active_session_contract :
    ∀ (db : DB) (now : Time) (token : Nat),
      (∀ s2, (SessionManager.get_active_session db now token).1 = some s2 →
        s2.is_active = true ∧ now < s2.expires_at ∧ s2.last_activity = now ∧
        ∃ s0 ∈ db.chat_sessions, s0.session_token = token ∧
          s2 = { s0 with last_activity := now }) ∧
      ((∀ s ∈ db.chat_sessions, s.session_token = token →
          s.is_active = false ∨ s.expires_at ≤ now) →
        (SessionManager.get_active_session db now token).1 = none) ∧
      (SessionManager.get_active_session db now token).2.chat_sessions.map
          (fun s => s.expires_at) =
        db.chat_sessions.map (fun s => s.expires_at) := by
  intro db now token
  cases hfind : db.chat_sessions.find? (SessionManager.session_query token now) with
  | none =>
      refine ⟨?_, ?_, ?_⟩
      · intro s2 h
        simp only [SessionManager.get_active_session, hfind] at h
        exact Option.noConfusion h
      · intro _
        simp only [SessionManager.get_active_session, hfind]
      · simp only [SessionManager.get_active_session, hfind]
  | some s =>
      have hq := List.find?_some hfind
      simp only [SessionManager.session_query, Bool.and_eq_true, beq_iff_eq,
        decide_eq_true_eq] at hq
      obtain ⟨⟨htok, hact⟩, hexp⟩ := hq
      have hmem := List.mem_of_find?_eq_some hfind
      refine ⟨?_, ?_, ?_⟩
      · intro s2 h
        simp only [SessionManager.get_active_session, hfind, Option.some.injEq] at h
        subst h
        exact ⟨hact, hexp, rfl, s, hmem, htok, rfl⟩
      · intro hall
        rcases hall s hmem htok with hinact | hexpired
        · rw [hact] at hinact; cases hinact
        · exact absurd hexp (not_lt.mpr hexpired)
      · simp only [SessionManager.get_active_session, hfind]
        exact map_proj_of_pointwise _ _ _ (fun x => by
          by_cases hx : (x.id == s.id) = true <;> simp [hx])

/-- Witness for C4: on a store whose only session with token 7 is past
its expiry at time 10, the lookup returns `none`. -/
theorem C4_witness :
    (SessionManager.get_active_session db_expired 10 7).1 = none :=
  (C4_get_active_session_contract db_expired 10 7).2.1 (by decide)

/-- C10: the admin terminate-session route deactivates a session only if
it belongs to the organization authenticated by the API key: when every
stored row with the requested id belongs to another organization the
route answers not-found and changes nothing, any session of another
organization is left unchanged in the store, and a non-not-found answer
implies a stored session with that id in the caller's organization. -/
theorem C10_terminate_session_scoped :
    ∀ (db : DB) (bot : SessionAwareChatbot) (org : Organization) (sid : Nat),
      ((∀ s ∈ db.chat_sessions, s.id = sid → s.organization_id ≠ org.id) →
        App.terminate_session db bot org sid =
          (ApiResponse.not_found "Session not found", db, bot)) ∧
      ((db.chat_sessions.map (fun s => s.id)).Nodup →
        ∀ t ∈ db.chat_sessions, t.organization_id ≠ org.id →
          t ∈ (App.terminate_session db bot org sid).2.1.chat_sessions) ∧
      (∀ resp db2 bot2,
        App.terminate_session db bot org sid = (resp, db2, bot2) →
        resp ≠ ApiResponse.not_found "Session not found" →
        ∃ s ∈ db.chat_sessions, s.id = sid ∧ s.organization_id = org.id) := by
  intro db bot org sid
  cases hfind : db.chat_sessions.find?
      (fun s => s.id == sid && s.organization_id == org.id) with
  | none =>
      refine ⟨?_, ?_, ?_⟩
      · intro _
        simp only [App.terminate_session, hfind]
      · intro _ t ht _
        simp only [App.terminate_session, hfind]
        exact ht
      · intro resp db2 bot2 heq hne
        simp only [App.terminate_session, hfind, Prod.mk.injEq] at heq
        exact absurd heq.1.symm hne
  | some s =>
      have hq := List.find?_some hfind
      simp only [Bool.and_eq_true, beq_iff_eq] at hq
      obtain ⟨hsid, horg⟩ := hq
      have hmem := List.mem_of_find?_eq_some hfind
      refine ⟨?_, ?_, ?_⟩
      · intro hall
        exact absurd horg (hall s hmem hsid)
      · intro hnodup t ht htorg
        have htid : t.id ≠ s.id := by
          intro hid
          have : t = s := List.inj_on_of_nodup_map hnodup ht hmem hid
          rw [this] at htorg
          exact htorg horg
        simp only [App.terminate_session, hfind]
        refine List.mem_map.mpr ⟨t, ht, ?_⟩
        simp [htid]
      · intro resp db2 bot2 _ _
        exact ⟨s, hmem, hsid, horg⟩

/-- Witness for C10: a request authenticated as `org_other` for the
session of `org_ex` is answered not-found and leaves the store and the
memory cache unchanged. -/
theorem C10_witness :
    App.terminate_session db_ex bot_ex org_other 100 =
      (ApiResponse.not_found "Session not found", db_ex, bot_ex) :=
  (C10_terminate_session_scoped db_ex bot_ex org_other 100).1 (by decide)

/-- After `get_or_create_user`, looking the same (username, organization)
up in the resulting store finds exactly the returned user, and the
returned user satisfies the lookup predicate. -/
theorem get_or_create_user_find (db : DB) (now : Time) (username : String)
    (org : Organization) (email : Option String) (u1 : User) (db1 : DB)
    (h : SessionManager.get_or_create_user db now username org email = (u1, db1)) :
    db1.users.find? (SessionManager.user_query username org.id) = some u1 ∧
    SessionManager.user_query username org.id u1 = true := by
  cases hfind : db.users.find? (SessionManager.user_query username org.id) with
  | some u =>
      have hq := List.find?_some hfind
      simp only [SessionManager.get_or_create_user, hfind, Prod.mk.injEq] at h
      obtain ⟨hu, hdb⟩ := h
      subst hu
      subst hdb
      have hp2 : SessionManager.user_query username org.id
          { u with last_active := now } = true := by
        simpa [SessionManager.user_query] using hq
      exact ⟨find?_map_replace_user db.users u _ _ hfind rfl hp2, hp2⟩
  | none =>
      simp only [SessionManager.get_or_create_user, hfind, Prod.mk.injEq] at h
      obtain ⟨hu, hdb⟩ := h
      subst hu
      subst hdb
      constructor
      · rw [List.find?_append, hfind]
        simp [SessionManager.user_query]
      · simp [SessionManager.user_query]

/-- C8: `get_or_create_user` is idempotent by (username, organization): a
repeat call returns a user with the same identity, active, with
`last_active` bumped to the call time, creating no new row; and when no
matching user exists, the first call appends exactly one new user row. -/
theorem C8_get_or_create_user_idempotent :
    ∀ (db : DB) (t1 t2 : Time) (username : String) (org : Organization)
      (email1 email2 : Option String) (u1 : User) (db1 : DB) (u2 : User) (db2 : DB),
      SessionManager.get_or_create_user db t1 username org email1 = (u1, db1) →
      SessionManager.get_or_create_user db1 t2 username org email2 = (u2, db2) →
      u2.id = u1.id ∧ u2.username = u1.username ∧
      u2.organization_id = org.id ∧ u2.is_active = true ∧
      u2.last_active = t2 ∧ db2.users.length = db1.users.length ∧
      (db.users.find? (SessionManager.user_query username org.id) = none →
        db1.users = db.users ++ [u1]) := by
  intro db t1 t2 username org email1 email2 u1 db1 u2 db2 h1 h2
  obtain ⟨hfind1, hq1⟩ := get_or_create_user_find db t1 username org email1 u1 db1 h1
  simp only [SessionManager.get_or_create_user, hfind1, Prod.mk.injEq] at h2
  obtain ⟨hu2, hdb2⟩ := h2
  subst hu2
  subst hdb2
  simp only [SessionManager.user_query, Bool.and_eq_true, beq_iff_eq] at hq1
  refine ⟨rfl, rfl, hq1.1.2, hq1.2, rfl, by simp, ?_⟩
  intro hnone
  simp only [SessionManager.get_or_create_user, hnone, Prod.mk.injEq] at h1
  obtain ⟨hu1, hdb1⟩ := h1
  subst hu1
  subst hdb1
  rfl

/-- Witness for C8: two consecutive logins of "alice" at Acme, starting
from a store without her, yield the same user id and an updated
`last_active`. -/
theorem C8_witness :
    (SessionManager.get_or_create_user
        (SessionManager.get_or_create_user DB.empty 3 "alice" org_ex none).2
        5 "alice" org_ex none).1.id =
      (SessionManager.get_or_create_user DB.empty 3 "alice" org_ex none).1.id ∧
    (SessionManager.get_or_create_user
        (SessionManager.get_or_create_user DB.empty 3 "alice" org_ex none).2
        5 "alice" org_ex none).1.last_active = 5 :=
  by
    have h := C8_get_or_create_user_idempotent DB.empty 3 5 "alice" org_ex none none
      (SessionManager.get_or_create_user DB.empty 3 "alice" org_ex none).1
      (SessionManager.get_or_create_user DB.empty 3 "alice" org_ex none).2
      (SessionManager.get_or_create_user
        (SessionManager.get_or_create_user DB.empty 3 "alice" org_ex none).2
        5 "alice" org_ex none).1
      (SessionManager.get_or_create_user
        (SessionManager.get_or_create_user DB.empty 3 "alice" org_ex none).2
        5 "alice" org_ex none).2
      rfl rfl
    exact ⟨h.1, h.2.2.2.2.1⟩

/-- On a validated query with an existing memory entry, a completed chain
run updates the entry by appending the (user, assistant) pair. -/
theorem get_response_runs_memory (bot : SessionAwareChatbot) (query : String)
    (sid : Nat) (hist : Option (List SessionManager.HistoryEntry))
    (docs : List RetrievedDoc) (http : HttpOutcome)
    (hnq : not_query query = false) (pr : Nat × Memory)
    (hfind : bot._sessions.find? (fun p => p.1 == sid) = some pr) :
    (SessionAwareChatbot.get_response bot query sid hist
        (ChainOutcome.runs docs http)).2.1._sessions.find? (fun p => p.1 == sid) =
      some (pr.1, { chat_memory := pr.2.chat_memory ++
        [(Role.user, query), (Role.assistant, UniversalLLM_call http)] }) := by
  simp only [SessionAwareChatbot.get_response, hnq, Bool.false_eq_true, if_false,
    SessionAwareChatbot.get_or_create_memory, hfind]
  exact find?_assoc_update _ _ _ _ hfind

/-- On a validated query with an existing memory entry, a raised chain
exception leaves the chatbot state unchanged. -/
theorem get_response_raises_state (bot : SessionAwareChatbot) (query : String)
    (sid : Nat) (hist : Option (List SessionManager.HistoryEntry)) (msg : String)
    (hnq : not_query query = false) (pr : Nat × Memory)
    (hfind : bot._sessions.find? (fun p => p.1 == sid) = some pr) :
    (SessionAwareChatbot.get_response bot query sid hist
        (ChainOutcome.raises msg)).2.1 = bot := by
  simp only [SessionAwareChatbot.get_response, hnq, Bool.false_eq_true, if_false,
    SessionAwareChatbot.get_or_create_memory, hfind]

/-- C6: the memory window exposed to the chain never holds more than K
turns (2K messages); a successful turn appends exactly the (user, query)
and (assistant, response) pair to the session's entry; a failed turn
(raised chain exception, or rejected input) leaves the entry, and hence
the window size, unchanged. -/
theorem C6_memory_window_invariant :
    (∀ (k : Nat) (m : Memory), (m.window k).length ≤ 2 * k) ∧
    ∀ (bot : SessionAwareChatbot) (query : String) (sid : Nat)
      (hist : Option (List SessionManager.HistoryEntry)) (outcome : ChainOutcome)
      (m : Memory),
      bot.mem_lookup sid = some m →
      (∀ docs http, outcome = ChainOutcome.runs docs http → not_query query = false →
        (SessionAwareChatbot.get_response bot query sid hist outcome).2.1.mem_lookup sid =
          some { chat_memory := m.chat_memory ++
            [(Role.user, query), (Role.assistant, UniversalLLM_call http)] }) ∧
      (∀ msg, outcome = ChainOutcome.raises msg → not_query query = false →
        (SessionAwareChatbot.get_response bot query sid hist outcome).2.1.mem_lookup sid =
          some m) ∧
      (not_query query = true →
        (SessionAwareChatbot.get_response bot query sid hist outcome).2.1 = bot) := by
  constructor
  · intro k m
    by_cases hk : k > 0
    · simp only [Memory.window, hk, if_true, List.length_drop]
      omega
    · simp [Memory.window, hk]
  · intro bot query sid hist outcome m hlook
    have hfind : ∃ pr, bot._sessions.find? (fun p => p.1 == sid) = some pr ∧ pr.2 = m := by
      unfold SessionAwareChatbot.mem_lookup at hlook
      cases hf : bot._sessions.find? (fun p => p.1 == sid) with
      | none => rw [hf] at hlook; simp at hlook
      | some pr =>
          rw [hf] at hlook
          simp only [Option.map_some', Option.some.injEq] at hlook
          exact ⟨pr, rfl, hlook⟩
    obtain ⟨pr, hf, hpr⟩ := hfind
    refine ⟨?_, ?_, ?_⟩
    · intro docs http hoc hnq
      subst hoc
      unfold SessionAwareChatbot.mem_lookup
      rw [get_response_runs_memory bot query sid hist docs http hnq pr hf]
      rw [hpr]
      rfl
    · intro msg hoc hnq
      subst hoc
      rw [get_response_raises_state bot query sid hist msg hnq pr hf]
      exact hlook
    · intro hq
      simp only [SessionAwareChatbot.get_response, hq, if_true]

/-- Witness for C6: a successful turn on session 100 appends exactly its
(user, assistant) pair to the cached buffer. -/
theorem C6_witness :
    (SessionAwareChatbot.get_response bot_with_entry "next question" 100 none
        (ChainOutcome.runs [] (HttpOutcome.resp 200 "sure"))).2.1.mem_lookup 100 =
      some { chat_memory := [(Role.user, "hello"), (Role.assistant, "hi"),
        (Role.user, "next question"), (Role.assistant, "sure")] } := by
  have h := (C6_memory_window_invariant.2 bot_with_entry "next question" 100 none
    (ChainOutcome.runs [] (HttpOutcome.resp 200 "sure"))
    { chat_memory := [(Role.user, "hello"), (Role.assistant, "hi")] } (by decide)).1
    [] (HttpOutcome.resp 200 "sure") rfl (by decide)
  simpa using h

/-- Counterexample for C2: on an HTTP 500 from the completion backend,
the orchestrator reports `success = true` with the apology text as the
answer and no error field, contradicting the claimed `success = false`
structured failure. -/
theorem C2_counterexample :
    (500 : Nat) ≠ 200 ∧
    (SessionAwareChatbot.get_response bot_ex "What is the leave policy?" 100 none
        (ChainOutcome.runs [] (HttpOutcome.resp 500 "Internal Server Error"))).1.success
      = true ∧
    (SessionAwareChatbot.get_response bot_ex "What is the leave policy?" 100 none
        (ChainOutcome.runs [] (HttpOutcome.resp 500 "Internal Server Error"))).1.response
      = apology_generic ∧
    (SessionAwareChatbot.get_response bot_ex "What is the leave policy?" 100 none
        (ChainOutcome.runs [] (HttpOutcome.resp 500 "Internal Server Error"))).1.error
      = none := by
  refine ⟨by decide, ?_, ?_, ?_⟩ <;> rfl

/-- C2 as amended: the LLM wrapper converts every completion-backend
failure (non-200 status, timeout, or transport error) into a user-safe
apology string returned as the answer text, so the orchestrator reports
`success = true` with no error field for such turns; only a raised chain
exception yields the structured `success = false` result that carries
the raw error detail in the separate error field; in every case a
well-formed result is returned rather than an exception. -/
theorem C2_amended_backend_failure :
    ∀ (bot : SessionAwareChatbot) (query : String) (sid : Nat)
      (hist : Option (List SessionManager.HistoryEntry)),
      not_query query = false →
      (∀ docs status content, status ≠ 200 →
        (SessionAwareChatbot.get_response bot query sid hist
            (ChainOutcome.runs docs (HttpOutcome.resp status content))).1 =
          { response := apology_generic,
            sources := SessionAwareChatbot.extract_sources docs,
            success := true, error := none, session_id := some sid }) ∧
      (∀ docs msg,
        (SessionAwareChatbot.get_response bot query sid hist
            (ChainOutcome.runs docs (HttpOutcome.exn msg))).1 =
          { response := "I apologize, but I encountered an error: " ++ msg,
            sources := SessionAwareChatbot.extract_sources docs,
            success := true, error := none, session_id := some sid }) ∧
      (∀ msg,
        (SessionAwareChatbot.get_response bot query sid hist
            (ChainOutcome.raises msg)).1 =
          { response := apology_generic, sources := [], success := false,
            error := some msg, session_id := none }) := by
  intro bot query sid hist hnq
  refine ⟨?_, ?_, ?_⟩
  · intro docs status content hstatus
    have hb : (status != 200) = true := bne_iff_ne.mpr hstatus
    simp only [SessionAwareChatbot.get_response, hnq, Bool.false_eq_true, if_false,
      UniversalLLM_call, hb, if_true]
  · intro docs msg
    simp only [SessionAwareChatbot.get_response, hnq, Bool.false_eq_true, if_false,
      UniversalLLM_call]
  · intro msg
    simp only [SessionAwareChatbot.get_response, hnq, Bool.false_eq_true, if_false]

/-- Witness for C2 (amended): a timeout-style transport error on a valid
query yields a `success = true` result whose answer is the apology with
the error appended. -/
theorem C2_witness :
    not_query "hi" = false ∧
    (SessionAwareChatbot.get_response bot_ex "hi" 1 none
        (ChainOutcome.runs [] (HttpOutcome.exn "timeout"))).1 =
      { response := "I apologize, but I encountered an error: timeout",
        sources := [], success := true, error := none, session_id := some 1 } :=
  ⟨by decide,
   (C2_amended_backend_failure bot_ex "hi" 1 none (by decide)).2.1 [] "timeout"⟩

/-- Counterexample for C1: a whitespace-only (but non-empty) message
passes the route-level guard, so a user Message record is persisted
before the orchestrator rejects the query: the store gains one message. -/
theorem C1_counterexample :
    strippedEmpty " " = true ∧ (" ").isEmpty = false ∧
    (App.chat_message db_ex bot_ex 5 session_ex (some " ") true []
        (ChainOutcome.runs [] (HttpOutcome.resp 200 "ok"))).2.1.chat_messages.length =
      db_ex.chat_messages.length + 1 := by
  refine ⟨by decide, by decide, ?_⟩
  rfl

/-- C1 as amended: a missing or empty message is rejected at the route
level with a bad-request answer and no side effect of any kind; a
whitespace-only non-empty message passes the route guard, so exactly one
user Message record is persisted, after which the orchestrator rejects
the query without invoking the retriever or the completion backend (no
chain event), without touching the memory cache, and the turn is
answered as a 500 failure. -/
theorem C1_amended_empty_vs_whitespace :
    ∀ (db : DB) (bot : SessionAwareChatbot) (now : Time) (session : ChatSession)
      (ih : Bool) (rows : List ChatMessage) (outcome : ChainOutcome),
      (App.chat_message db bot now session none ih rows outcome =
        (ApiResponse.bad_request "Message is required", db, bot, [])) ∧
      (∀ m : String, m.isEmpty = true →
        App.chat_message db bot now session (some m) ih rows outcome =
          (ApiResponse.bad_request "Message is required", db, bot, [])) ∧
      (∀ m : String, m.isEmpty = false → strippedEmpty m = true →
        App.chat_message db bot now session (some m) ih rows outcome =
          (ApiResponse.server_error "Failed to get response" "Unknown error",
           { db with
               chat_messages := db.chat_messages ++
                 [{ id := db.next_uuid, session_id := session.id,
                    message_type := "user", content := m, sources := [],
                    timestamp := now }],
               next_uuid := db.next_uuid + 1 },
           bot,
           [Event.saved_message db.next_uuid "user", Event.invoked_orchestrator])) := by
  intro db bot now session ih rows outcome
  refine ⟨rfl, ?_, ?_⟩
  · intro m hm
    simp only [App.chat_message, hm, if_true]
  · intro m hm hws
    have hnq : not_query m = true := by simp [not_query, hws]
    simp only [App.chat_message, hm, Bool.false_eq_true, if_false,
      SessionManager.save_message, SessionAwareChatbot.get_response, hnq, if_true]
    rfl

/-- Witness for C1 (amended): the whitespace-only message " " on
`session_ex` persists one user Message and is then rejected without any
chain invocation. -/
theorem C1_witness :
    App.chat_message db_ex bot_ex 5 session_ex (some " ") true []
        (ChainOutcome.runs [] (HttpOutcome.resp 200 "ok")) =
      (ApiResponse.server_error "Failed to get response" "Unknown error",
       db_ex_after_ws, bot_ex,
       [Event.saved_message 101 "user", Event.invoked_orchestrator]) := by
  have h := (C1_amended_empty_vs_whitespace db_ex bot_ex 5 session_ex true []
    (ChainOutcome.runs [] (HttpOutcome.resp 200 "ok"))).2.2 " " (by decide) (by decide)
  exact h

/-- The events of `get_response` are empty (rejected input) or a single
chain invocation. -/
theorem get_response_events (bot : SessionAwareChatbot) (query : String)
    (sid : Nat) (hist : Option (List SessionManager.HistoryEntry))
    (outcome : ChainOutcome) :
    (SessionAwareChatbot.get_response bot query sid hist outcome).2.2 = [] ∨
    (SessionAwareChatbot.get_response bot query sid hist outcome).2.2 =
      [Event.invoked_chain] := by
  by_cases hq : not_query query = true
  · left
    simp [SessionAwareChatbot.get_response, hq]
  · have hq2 : not_query query = false := by simpa using hq
    cases outcome <;> right <;>
      simp [SessionAwareChatbot.get_response, hq2, Bool.false_eq_true]

/-- C9: on every submit-message turn with a non-empty message on a valid
session, the user's Message row is persisted before the orchestrator is
invoked (it heads the event trace); the assistant's Message row is
appended exactly when the turn succeeds; a failed turn leaves exactly
the one user Message with no paired assistant Message and no
assistant-save event. -/
theorem C9_user_message_persisted_first :
    ∀ (db : DB) (bot : SessionAwareChatbot) (now : Time) (session : ChatSession)
      (msg : String) (ih : Bool) (rows : List ChatMessage) (outcome : ChainOutcome)
      (resp : ApiResponse) (db2 : DB) (bot2 : SessionAwareChatbot)
      (trace : List Event),
      msg.isEmpty = false →
      App.chat_message db bot now session (some msg) ih rows outcome =
        (resp, db2, bot2, trace) →
      ∃ umsg : ChatMessage,
        umsg.message_type = "user" ∧ umsg.content = msg ∧
        umsg.session_id = session.id ∧
        trace.take 2 = [Event.saved_message umsg.id "user", Event.invoked_orchestrator] ∧
        (resp.is_ok = true →
          ∃ amsg : ChatMessage, amsg.message_type = "assistant" ∧
            amsg.session_id = session.id ∧
            db2.chat_messages = db.chat_messages ++ [umsg, amsg]) ∧
        (resp.is_ok = false →
          db2.chat_messages = db.chat_messages ++ [umsg] ∧
          ∀ i, Event.saved_message i "assistant" ∉ trace) := by
  intro db bot now session msg ih rows outcome resp db2 bot2 trace hm heq
  have hevents := get_response_events bot msg session.id
    (some (if ih then SessionManager.get_conversation_history_rows rows
      Config.MAX_CONTEXT_MESSAGES else [])) outcome
  simp only [App.chat_message, hm, Bool.false_eq_true, if_false,
    SessionManager.save_message] at heq
  by_cases hs : (SessionAwareChatbot.get_response bot msg session.id
      (some (if ih then SessionManager.get_conversation_history_rows rows
        Config.MAX_CONTEXT_MESSAGES else [])) outcome).1.success = true
  · rw [if_pos hs] at heq
    simp only [Prod.mk.injEq] at heq
    obtain ⟨h1, h2, h3, h4⟩ := heq
    subst h1; subst h2; subst h3; subst h4
    refine ⟨⟨db.next_uuid, session.id, "user", msg, [], now⟩, rfl, rfl, rfl, rfl,
      ?_, ?_⟩
    · intro _
      refine ⟨⟨db.next_uuid + 1, session.id, "assistant",
        (SessionAwareChatbot.get_response bot msg session.id
          (some (if ih then SessionManager.get_conversation_history_rows rows
            Config.MAX_CONTEXT_MESSAGES else [])) outcome).1.response,
        (SessionAwareChatbot.get_response bot msg session.id
          (some (if ih then SessionManager.get_conversation_history_rows rows
            Config.MAX_CONTEXT_MESSAGES else [])) outcome).1.sources,
        now⟩, rfl, rfl, ?_⟩
      simp [List.append_assoc]
    · intro hok
      simp [ApiResponse.is_ok] at hok
  · rw [if_neg hs] at heq
    simp only [Prod.mk.injEq] at heq
    obtain ⟨h1, h2, h3, h4⟩ := heq
    subst h1; subst h2; subst h3; subst h4
    refine ⟨⟨db.next_uuid, session.id, "user", msg, [], now⟩, rfl, rfl, rfl, rfl,
      ?_, ?_⟩
    · intro hok
      simp [ApiResponse.is_ok] at hok
    · intro _
      refine ⟨rfl, ?_⟩
      intro i
      rcases hevents with hev | hev <;> rw [hev] <;> simp

/-- Witness for C9: a successful turn with message "Hello" on
`session_ex` saves the user row first and then the assistant row. -/
theorem C9_witness :
    ("Hello").isEmpty = false ∧
    ∃ umsg : ChatMessage,
      umsg.message_type = "user" ∧ umsg.content = "Hello" ∧
      umsg.session_id = session_ex.id ∧
      (App.chat_message db_ex bot_ex 5 session_ex (some "Hello") false []
          (ChainOutcome.runs [] (HttpOutcome.resp 200 "answer"))).2.2.2.take 2 =
        [Event.saved_message umsg.id "user", Event.invoked_orchestrator] ∧
      ((App.chat_message db_ex bot_ex 5 session_ex (some "Hello") false []
          (ChainOutcome.runs [] (HttpOutcome.resp 200 "answer"))).1.is_ok = true →
        ∃ amsg : ChatMessage, amsg.message_type = "assistant" ∧
          amsg.session_id = session_ex.id ∧
          (App.chat_message db_ex bot_ex 5 session_ex (some "Hello") false []
              (ChainOutcome.runs [] (HttpOutcome.resp 200 "answer"))).2.1.chat_messages =
            db_ex.chat_messages ++ [umsg, amsg]) ∧
      ((App.chat_message db_ex bot_ex 5 session_ex (some "Hello") false []
          (ChainOutcome.runs [] (HttpOutcome.resp 200 "answer"))).1.is_ok = false →
        (App.chat_message db_ex bot_ex 5 session_ex (some "Hello") false []
            (ChainOutcome.runs [] (HttpOutcome.resp 200 "answer"))).2.1.chat_messages =
          db_ex.chat_messages ++ [umsg] ∧
        ∀ i, Event.saved_message i "assistant" ∉
          (App.chat_message db_ex bot_ex 5 session_ex (some "Hello") false []
              (ChainOutcome.runs [] (HttpOutcome.resp 200 "answer"))).2.2.2) := by
  refine ⟨by decide, ?_⟩
  exact C9_user_message_persisted_first db_ex bot_ex 5 session_ex "Hello" false []
    (ChainOutcome.runs [] (HttpOutcome.resp 200 "answer")) _ _ _ _ (by decide) rfl

/-- Mapping a step that preserves `user_id` and never activates a session
does not increase the number of active sessions of any user. -/
theorem length_filter_map_le (l : List ChatSession) (g : ChatSession → ChatSession)
    (uid : Nat) (hu : ∀ s, (g s).user_id = s.user_id)
    (ha : ∀ s, (g s).is_active = true → s.is_active = true) :
    ((l.map g).filter (fun s => s.user_id == uid && s.is_active)).length ≤
      (l.filter (fun s => s.user_id == uid && s.is_active)).length := by
  induction l with
  | nil => simp
  | cons a t ih =>
      rw [List.map_cons, List.filter_cons, List.filter_cons]
      by_cases hga : ((g a).user_id == uid && (g a).is_active) = true
      · have hga2 : (g a).user_id = uid ∧ (g a).is_active = true := by
          simpa [Bool.and_eq_true, beq_iff_eq] using hga
        have hpa : (a.user_id == uid && a.is_active) = true := by
          simp only [Bool.and_eq_true, beq_iff_eq]
          exact ⟨by rw [← hu a]; exact hga2.1, ha a hga2.2⟩
        simp only [hga, hpa, if_true, List.length_cons]
        omega
      · have hga2 : ((g a).user_id == uid && (g a).is_active) = false :=
          Bool.eq_false_iff.mpr hga
        by_cases hpa : (a.user_id == uid && a.is_active) = true <;>
          simp only [hga2, Bool.false_eq_true, if_false, hpa, if_true,
            List.length_cons] <;> omega

/-- Deactivating every active session of a user leaves that user with no
active session in the mapped list. -/
theorem filter_deact_self (l : List ChatSession) (uid : Nat) :
    (l.map (fun s => if s.user_id == uid && s.is_active
        then { s with is_active := false } else s)).filter
      (fun s => s.user_id == uid && s.is_active) = [] := by
  induction l with
  | nil => rfl
  | cons a t ih =>
      rw [List.map_cons, List.filter_cons]
      by_cases hc : (a.user_id == uid && a.is_active) = true
      · rw [if_pos hc, if_neg (by simp)]
        exact ih
      · rw [if_neg hc, if_neg (by simpa using hc)]
        exact ih

/-- Deactivating one user's sessions leaves the active sessions of every
other user untouched. -/
theorem filter_deact_other (l : List ChatSession) (uidU uid2 : Nat)
    (h : ¬ uidU = uid2) :
    (l.map (fun s => if s.user_id == uidU && s.is_active
        then { s with is_active := false } else s)).filter
      (fun s => s.user_id == uid2 && s.is_active) =
    l.filter (fun s => s.user_id == uid2 && s.is_active) := by
  induction l with
  | nil => rfl
  | cons a t ih =>
      rw [List.map_cons, List.filter_cons, List.filter_cons]
      by_cases hc : (a.user_id == uidU && a.is_active) = true
      · have hc2 : a.user_id = uidU ∧ a.is_active = true := by
          simpa [Bool.and_eq_true, beq_iff_eq] using hc
        have ha2 : (a.user_id == uid2) = false := by
          simp [hc2.1, h]
        rw [if_pos hc, if_neg (by simp [ha2]), if_neg (by simp [ha2])]
        exact ih
      · rw [if_neg hc]
        by_cases hpa : (a.user_id == uid2 && a.is_active) = true
        · rw [if_pos hpa, if_pos hpa, ih]
        · rw [if_neg hpa, if_neg hpa]
          exact ih

/-- `create_session` preserves the single-active-session-per-user
invariant, establishing it outright for the logging-in user. -/
theorem create_session_single_active (db : DB) (now : Time) (user : User)
    (hinv : SingleActivePerUser db) :
    SingleActivePerUser (SessionManager.create_session db now user).2 := by
  intro uid
  have hbase := hinv uid
  unfold active_session_count at hbase ⊢
  simp only [SessionManager.create_session]
  rw [List.filter_append]
  by_cases huid : user.id = uid
  · subst huid
    rw [filter_deact_self]
    simp
  · rw [filter_deact_other db.chat_sessions user.id uid huid]
    have hb : (user.id == uid) = false := by simp [huid]
    simp only [List.length_append, List.filter_cons, List.filter_nil, hb,
      Bool.false_and, Bool.false_eq_true, if_false, List.length_nil]
    omega

/-- Every reachable store satisfies the single-active-session-per-user
invariant. -/
theorem reachable_single_active : ∀ db, Reachable db → SingleActivePerUser db := by
  intro db h
  induction h with
  | empty => intro uid; simp [active_session_count, DB.empty]
  | provision db name key _ ih =>
      intro uid
      simpa [active_session_count, App.provision_organization] using ih uid
  | login_user db now username org email _ ih =>
      intro uid
      cases hfind : db.users.find? (SessionManager.user_query username org.id) <;>
        simpa [active_session_count, SessionManager.get_or_create_user, hfind]
          using ih uid
  | login_session db now user _ ih =>
      exact create_session_single_active db now user ih
  | touch_session db now token _ ih =>
      intro uid
      cases hfind : db.chat_sessions.find? (SessionManager.session_query token now) with
      | none => simpa [SessionManager.get_active_session, hfind] using ih uid
      | some s =>
          simp only [active_session_count, SessionManager.get_active_session, hfind]
          refine le_trans (length_filter_map_le _ _ _ ?_ ?_) (ih uid)
          · intro t
            by_cases ht : (t.id == s.id) = true <;> simp [ht]
          · intro t
            by_cases ht : (t.id == s.id) = true <;> simp [ht]
  | message db now session mt content sources _ ih =>
      intro uid
      simpa [active_session_count, SessionManager.save_message] using ih uid
  | sweep db now _ ih =>
      intro uid
      simp only [active_session_count, SessionManager.cleanup_expired_sessions]
      refine le_trans (length_filter_map_le _ _ _ ?_ ?_) (ih uid)
      · intro t
        by_cases ht : (decide (t.expires_at < now) && t.is_active) = true <;>
          simp [ht]
      · intro t
        by_cases ht : (decide (t.expires_at < now) && t.is_active) = true <;>
          simp [ht]
  | logout_session db bot session _ ih =>
      intro uid
      simp only [active_session_count, App.logout]
      refine le_trans (length_filter_map_le _ _ _ ?_ ?_) (ih uid)
      · intro t
        by_cases ht : (t.id == session.id) = true <;> simp [ht]
      · intro t
        by_cases ht : (t.id == session.id) = true <;> simp [ht]
  | admin_terminate db bot org sid _ ih =>
      intro uid
      cases hfind : db.chat_sessions.find?
          (fun s => s.id == sid && s.organization_id == org.id) with
      | none => simpa [App.terminate_session, hfind] using ih uid
      | some s =>
          simp only [active_session_count, App.terminate_session, hfind]
          refine le_trans (length_filter_map_le _ _ _ ?_ ?_) (ih uid)
          · intro t
            by_cases ht : (t.id == s.id) = true <;> simp [ht]
          · intro t
            by_cases ht : (t.id == s.id) = true <;> simp [ht]

/-- C3: every reachable store has at most one active session per user;
`create_session` deactivates all prior active sessions of the user and
assigns a fresh token, so two logins of the same user yield different
tokens, the earlier session row ends up deactivated (and its original
active form is gone from the store), and afterwards the user's only
active session is the second one. -/
theorem C3_single_active_session :
    (∀ db, Reachable db → SingleActivePerUser db) ∧
    ∀ (db : DB) (t1 t2 : Time) (u : User) (s1 : ChatSession) (db1 : DB)
      (s2 : ChatSession) (db2 : DB),
      SessionManager.create_session db t1 u = (s1, db1) →
      SessionManager.create_session db1 t2 u = (s2, db2) →
      s1.session_token ≠ s2.session_token ∧
      { s1 with is_active := false } ∈ db2.chat_sessions ∧
      s1 ∉ db2.chat_sessions ∧
      db2.chat_sessions.filter (fun s => s.user_id == u.id && s.is_active) = [s2] := by
  refine ⟨reachable_single_active, ?_⟩
  intro db t1 t2 u s1 db1 s2 db2 h1 h2
  simp only [SessionManager.create_session, Prod.mk.injEq] at h1
  obtain ⟨hs1, hdb1⟩ := h1
  subst hs1
  subst hdb1
  simp only [SessionManager.create_session, Prod.mk.injEq] at h2
  obtain ⟨hs2, hdb2⟩ := h2
  subst hs2
  subst hdb2
  refine ⟨?_, ?_, ?_, ?_⟩
  · show db.next_uuid ≠ db.next_uuid + 1
    omega
  · refine List.mem_append_left _ ?_
    rw [List.map_append]
    refine List.mem_append_right _ ?_
    simp
  · intro hmem
    rcases List.mem_append.mp hmem with hin | hin
    · obtain ⟨v, hv, hgv⟩ := List.mem_map.mp hin
      by_cases hcv : (v.user_id == u.id && v.is_active) = true
      · rw [if_pos hcv] at hgv
        have hflag := congrArg ChatSession.is_active hgv
        simp at hflag
      · rw [if_neg hcv] at hgv
        rw [hgv] at hcv
        simp at hcv
    · simp only [List.mem_singleton] at hin
      have htok := congrArg ChatSession.session_token hin
      simp only [] at htok
      omega
  · rw [List.filter_append, filter_deact_self]
    simp

/-- Witness for C3: the empty store satisfies the invariant, and two
concrete logins of `user_ex` give different tokens. -/
theorem C3_witness :
    SingleActivePerUser DB.empty ∧
    (SessionManager.create_session DB.empty 0 user_ex).1.session_token ≠
      (SessionManager.create_session
        (SessionManager.create_session DB.empty 0 user_ex).2 1 user_ex).1.session_token :=
  ⟨C3_single_active_session.1 DB.empty Reachable.empty,
   (C3_single_active_session.2 DB.empty 0 1 user_ex _ _ _ _ rfl rfl).1⟩

/-- When the row timestamps are strictly increasing, the DESC-ordered
query result is uniquely determined: it is the reversed row list. -/
theorem ordered_desc_eq_reverse (msgs q : List ChatMessage)
    (hlt : msgs.Pairwise (fun a b => a.timestamp < b.timestamp))
    (hq : SessionManager.OrderedByTimestampDesc msgs q) :
    q = msgs.reverse := by
  obtain ⟨hperm, hsorted⟩ := hq
  have hrevsorted : msgs.reverse.Pairwise (fun a b => b.timestamp ≤ a.timestamp) := by
    rw [List.pairwise_reverse]
    exact hlt.imp (fun hab => le_of_lt hab)
  have hnodup : (msgs.map (fun m => m.timestamp)).Nodup := by
    show (msgs.map (fun m => m.timestamp)).Pairwise (fun a b => a ≠ b)
    exact (List.pairwise_map).mpr (hlt.imp (fun hab => Nat.ne_of_lt hab))
  have hanti : ∀ a b : ChatMessage, a ∈ q → b ∈ msgs.reverse →
      b.timestamp ≤ a.timestamp → a.timestamp ≤ b.timestamp → a = b := by
    intro a b ha hb hab hba
    have ha2 : a ∈ msgs := hperm.mem_iff.mpr ha
    have hb2 : b ∈ msgs := List.mem_reverse.mp hb
    exact List.inj_on_of_nodup_map hnodup ha2 hb2 (le_antisymm hba hab)
  exact List.Perm.eq_of_sorted hanti hsorted hrevsorted
    (hperm.symm.trans (List.reverse_perm msgs).symm)

/-- C5: for a session holding N completed turn-pairs with strictly
increasing timestamps, `get_conversation_history` with limit L returns
exactly the 2 * min(N, L) most recent messages, i.e. the min(N, L) most
recent turn-pairs, in chronological order (oldest first). -/
theorem C5_conversation_history_pairs :
    ∀ (db : DB) (session : ChatSession) (N L : Nat) (q : List ChatMessage),
      (SessionManager.session_messages db session).length = 2 * N →
      SessionManager.alternating_turns
        (SessionManager.session_messages db session) = true →
      (SessionManager.session_messages db session).Pairwise
        (fun a b => a.timestamp < b.timestamp) →
      SessionManager.OrderedByTimestampDesc
        (SessionManager.session_messages db session) q →
      SessionManager.get_conversation_history_rows q L =
        ((SessionManager.session_messages db session).drop (2 * N - 2 * L)).map
          SessionManager.history_entry ∧
      (SessionManager.get_conversation_history_rows q L).length = 2 * min N L := by
  intro db session N L q hN _halt hlt hq
  have hqeq := ordered_desc_eq_reverse _ q hlt hq
  subst hqeq
  have htake : (SessionManager.session_messages db session).reverse.take (L * 2) =
      ((SessionManager.session_messages db session).drop
        ((SessionManager.session_messages db session).length - L * 2)).reverse :=
    List.take_reverse
  rw [SessionManager.get_conversation_history_rows, htake, List.reverse_reverse]
  have hlen : ((SessionManager.session_messages db session).drop
      ((SessionManager.session_messages db session).length - L * 2)).length =
      2 * min N L := by
    rw [List.length_drop, hN]
    rcases Nat.le_total L N with h | h
    · rw [min_eq_right h]
      omega
    · rw [min_eq_left h]
      omega
  have hdrop : (SessionManager.session_messages db session).length - L * 2 =
      2 * N - 2 * L := by
    rw [hN]; omega
  rw [if_neg (by rw [List.length_map, hlen]; omega), hdrop]
  exact ⟨rfl, by rw [List.length_map, ← hdrop, hlen]⟩

/-- Witness for C5: one stored turn, limit 1, DESC rows `[msg_a1,
msg_u1]`: the history is that turn in chronological order, of length 2. -/
theorem C5_witness :
    SessionManager.get_conversation_history_rows [msg_a1, msg_u1] 1 =
      ((SessionManager.session_messages db_hist session_ex).drop (2 * 1 - 2 * 1)).map
        SessionManager.history_entry ∧
    (SessionManager.get_conversation_history_rows [msg_a1, msg_u1] 1).length =
      2 * min 1 1 :=
  C5_conversation_history_pairs db_hist session_ex 1 1 [msg_a1, msg_u1]
    (by decide) (by decide) (by decide) ⟨by decide, by decide⟩

end CB
